import Mathlib

/-!
Shallow embedding of the billing transaction engine of this repository
(src/index.js): the pricing rule evaluator (calculateReciboTotal), the
receipt lifecycle operations (emitir-recibo, cancelar-recibo), the cash-cut
bucket id derivation (generateCorteId) and the artifact path resolution of
the document regeneration and viewing endpoints.

Database rows become Lean structures, SQL statements become explicit list
operations on a `DB` record, machine numbers become `Rat`/`Int`, JS thrown
errors become `Except String`.  External collaborators (PDF renderer,
object-storage upload) are abstracted as `Except String` parameters; a
database transaction that throws is rolled back, so an erroring transaction
returns the original `DB`.
-/

namespace Billing

/-- A calendar date, as carried by the receipt's `fecha` column
(`getFullYear`, `getMonth()+1`, `getDate`). -/
structure Fecha where
  year : Int
  month : Int
  day : Int
deriving DecidableEq, Repr

/-- SQL `DATE` comparison `a <= b`: lexicographic on (year, month, day). -/
def Fecha.le (a b : Fecha) : Bool :=
  a.year < b.year
    || (a.year == b.year
        && (a.month < b.month || (a.month == b.month && a.day <= b.day)))

/-- A row of the `recibos` table.  Nullable columns are `Option`; the
boolean flags `generando_pdf` / `enimpresion` / `solicita_cancelacion`
collapse SQL `NULL` and `FALSE` into `false`, which is how every query in
the source reads them (`generando_pdf IS NULL OR generando_pdf = FALSE`). -/
structure Recibo where
  id_recibo : String
  id_alumno : Option String
  id_plantel : Option String
  id_usuario : String
  fecha : Option Fecha
  forma_pago : String
  status_recibo : String
  total_recibo : Rat
  encorte : Option String
  fecha_emision : Option Fecha
  fecha_cancelacion : Option Fecha
  solicita_cancelacion : Bool
  generando_pdf : Bool
  enimpresion : Bool
  ruta_pdf : Option String
deriving DecidableEq, Repr

/-- A row of the `recibos_detalle` table. -/
structure Detalle where
  id_detalle : String
  id_recibo : String
  id_producto : String
  precio_base : Rat
  frecuencia_producto : String
  mes : Option Int
  anio : Option Int
  monto_ajuste : Option Rat
  descuento : Rat
  recargo : Rat
  beca : Rat
  precio_final : Rat
  status_detalle : String
deriving DecidableEq, Repr

/-- A row of `reglas_producto`, with its `reglas_producto_formas_pago` and
`reglas_producto_casos` join rows inlined as lists (the join tables key on
(id_regla, value), so membership is set-like). -/
structure Regla where
  id_regla : String
  id_producto : String
  formas_pago : List String
  casos : List String
  fecha_inicio : Option Fecha
  fecha_fin : Option Fecha
  es_periodica : Bool
  dia_mes_inicio : Int
  dia_mes_fin : Int
  prioridad : Int
  pct_descuento : Option Rat
  pct_recargo : Option Rat
deriving DecidableEq, Repr

/-- A row of `alumnos_mensuales` (scholarship ledger). -/
structure AlumnoMensual where
  id_alumno : String
  id_producto : String
  beca_monto : Option Rat
deriving DecidableEq, Repr

/-- The database state seen by the engine. -/
structure DB where
  recibos : List Recibo
  recibos_detalle : List Detalle
  reglas_producto : List Regla
  alumnos_mensuales : List AlumnoMensual
deriving DecidableEq, Repr

/-- JS truthiness of a nullable numeric column: `null` and `0` are falsy. -/
def truthyInt : Option Int → Bool
  | some v => v != 0
  | none => false

/-- JS truthiness of a nullable decimal column. -/
def truthyRat : Option Rat → Bool
  | some v => v != 0
  | none => false

/-- JS truthiness of a nullable string column: `null` and `""` are falsy. -/
def truthyStr : Option String → Bool
  | some s => s != ""
  | none => false

/-- SQL `=` between two nullable integer columns: `NULL` compares as not
equal to anything, including `NULL`. -/
def sqlEqInt (a b : Option Int) : Bool :=
  match a, b with
  | some x, some y => x == y
  | _, _ => false

/-- Does `pat` match at the head of `s`? -/
def matchesAt : List Char → List Char → Bool
  | [], _ => true
  | _ :: _, [] => false
  | p :: ps, c :: cs => p == c && matchesAt ps cs

/-- JS `String.prototype.includes` on character lists. -/
def occursIn (pat : List Char) : List Char → Bool
  | [] => matchesAt pat []
  | c :: cs => matchesAt pat (c :: cs) || occursIn pat cs

/-- JS `s.includes(pat)`. -/
def strIncludes (s pat : String) : Bool := occursIn pat.data s.data

/-- JS `s.startsWith(pre)`. -/
def strStartsWith (s pre : String) : Bool := matchesAt pre.data s.data

/-- Drop the first `n` characters of `s` (the effect of JS
`s.replace(pre, "")` when `s` starts with `pre` and `n` is the length of
`pre`). -/
def strDrop (s : String) (n : Nat) : String := String.mk (s.data.drop n)

/-! ## Pricing rule evaluator (calculateReciboTotal, src/index.js:1988-2172) -/

/-- Temporal case of a monthly line relative to the receipt's operating
(year, month) (src/index.js:2042-2056).  `Adelantado` = Early,
`Vencido` = Late, `Corriente` = Current. -/
def computeCaso (year month : Int) (mes anio : Option Int) : String :=
  if truthyInt mes && truthyInt anio then
    let m := mes.getD 0
    let a := anio.getD 0
    if a > year || (a == year && m > month) then "Adelantado"
    else if a < year || (a == year && m < month) then "Vencido"
    else "Corriente"
  else "Corriente"

/-- `fecha_inicio IS NULL OR fecha_inicio <= fecha`. -/
def inicioOk (fi : Option Fecha) (fecha : Fecha) : Bool :=
  match fi with
  | none => true
  | some f => Fecha.le f fecha

/-- `fecha_fin IS NULL OR fecha_fin >= fecha`. -/
def finOk (ff : Option Fecha) (fecha : Fecha) : Bool :=
  match ff with
  | none => true
  | some f => Fecha.le fecha f

/-- `es_periodica = 0 OR DAY(fecha) BETWEEN dia_mes_inicio AND dia_mes_fin`. -/
def periodicaOk (rp : Regla) (fecha : Fecha) : Bool :=
  !rp.es_periodica || (rp.dia_mes_inicio ≤ fecha.day && fecha.day ≤ rp.dia_mes_fin)

/-- WHERE clause of the rule query for a Monthly line
(src/index.js:2058-2088): product, payment method join, temporal case
join, validity window, periodic day window. -/
def matchesReglaMensual (rp : Regla) (id_producto forma_pago caso : String)
    (fecha : Fecha) : Bool :=
  rp.id_producto == id_producto
    && rp.formas_pago.contains forma_pago
    && rp.casos.contains caso
    && inicioOk rp.fecha_inicio fecha
    && finOk rp.fecha_fin fecha
    && periodicaOk rp fecha

/-- WHERE clause of the rule query for a non-Monthly line
(src/index.js:2090-2116): same as the Monthly one minus the case join. -/
def matchesReglaNoMensual (rp : Regla) (id_producto forma_pago : String)
    (fecha : Fecha) : Bool :=
  rp.id_producto == id_producto
    && rp.formas_pago.contains forma_pago
    && inicioOk rp.fecha_inicio fecha
    && finOk rp.fecha_fin fecha
    && periodicaOk rp fecha

/-- Insert keeping larger `prioridad` first (ORDER BY prioridad DESC). -/
def insertPrioridad (rp : Regla) : List Regla → List Regla
  | [] => [rp]
  | x :: xs => if x.prioridad ≤ rp.prioridad then rp :: x :: xs
               else x :: insertPrioridad rp xs

/-- `ORDER BY rp.prioridad DESC` of the rule queries. -/
def sortByPrioridadDesc : List Regla → List Regla
  | [] => []
  | x :: xs => insertPrioridad x (sortByPrioridadDesc xs)

/-- The matching rules for one line item, before ordering: the Monthly
branch computes the temporal case and joins on it, the other branch does
not (src/index.js:2040-2117). -/
def reglasForDetalle (db : DB) (recibo : Recibo) (fecha : Fecha)
    (year month : Int) (detalle : Detalle) : List Regla :=
  if detalle.frecuencia_producto == "Mensual" then
    let caso := computeCaso year month detalle.mes detalle.anio
    db.reglas_producto.filter
      (fun rp => matchesReglaMensual rp detalle.id_producto recibo.forma_pago caso fecha)
  else
    db.reglas_producto.filter
      (fun rp => matchesReglaNoMensual rp detalle.id_producto recibo.forma_pago fecha)

/-- The rule loop (src/index.js:2119-2126): for each rule, a truthy
`pct_descuento` adds `precioBase * pct_descuento` to the discount and a
truthy `pct_recargo` adds `precioBase * pct_recargo` to the surcharge. -/
def applyReglas (precioBase : Rat) (reglas : List Regla) : Rat × Rat :=
  reglas.foldl
    (fun acc rp =>
      let descuento := if truthyRat rp.pct_descuento
        then acc.1 + precioBase * rp.pct_descuento.getD 0 else acc.1
      let recargo := if truthyRat rp.pct_recargo
        then acc.2 + precioBase * rp.pct_recargo.getD 0 else acc.2
      (descuento, recargo))
    (0, 0)

/-- `SELECT beca_monto FROM alumnos_mensuales WHERE id_alumno = ? AND
id_producto = ?` destructured to its first row, then
`Number(alumnoMensual?.beca_monto || 0)` (src/index.js:2129-2138). -/
def lookupBecaPct (db : DB) (id_alumno : Option String) (id_producto : String) : Rat :=
  match db.alumnos_mensuales.find?
      (fun am => some am.id_alumno == id_alumno && am.id_producto == id_producto) with
  | some am => am.beca_monto.getD 0
  | none => 0

/-- Per-line results written back by the per-line UPDATE
(src/index.js:2147-2157). -/
structure LineResult where
  descuento : Rat
  recargo : Rat
  beca : Rat
  precio_final : Int
deriving DecidableEq, Repr

/-- One iteration of the per-line pricing loop of calculateReciboTotal
(src/index.js:2034-2160): rule selection, additive discount/surcharge,
scholarship for Monthly lines, manual adjustment, and
`precioFinal = Math.max(0, Math.ceil(precioCalculado))`. -/
def priceDetalle (db : DB) (recibo : Recibo) (fecha : Fecha)
    (year month : Int) (detalle : Detalle) : LineResult :=
  let precioBase := detalle.precio_base
  let reglas := sortByPrioridadDesc (reglasForDetalle db recibo fecha year month detalle)
  let dr := applyReglas precioBase reglas
  let descuento := dr.1
  let recargo := dr.2
  let beca : Rat :=
    if detalle.frecuencia_producto == "Mensual" then
      precioBase * lookupBecaPct db recibo.id_alumno detalle.id_producto
    else 0
  let montoAjuste := detalle.monto_ajuste.getD 0
  let precioCalculado := precioBase - descuento - beca + recargo + montoAjuste
  let precioFinal : Int := max 0 ⌈precioCalculado⌉
  { descuento := descuento, recargo := recargo, beca := beca,
    precio_final := precioFinal }

/-- The per-line UPDATE of recibos_detalle (src/index.js:2147-2157). -/
def updateDetalle (db : DB) (id_detalle : String) (res : LineResult) : DB :=
  { db with recibos_detalle := db.recibos_detalle.map (fun d =>
      if d.id_detalle == id_detalle then
        { d with descuento := res.descuento, recargo := res.recargo,
                 beca := res.beca, precio_final := (res.precio_final : Rat) }
      else d) }

/-- `UPDATE recibos SET total_recibo = ? WHERE id_recibo = ?`. -/
def setTotalRecibo (db : DB) (reciboId : String) (total : Rat) : DB :=
  { db with recibos := db.recibos.map (fun r =>
      if r.id_recibo == reciboId then { r with total_recibo := total } else r) }

/-- The Borrador line items of a receipt, as selected both by
calculateReciboTotal (src/index.js:2010-2016) and by the COUNT query of
the issue endpoint (src/index.js:730-738). -/
def detallesBorrador (db : DB) (reciboId : String) : List Detalle :=
  db.recibos_detalle.filter
    (fun d => d.id_recibo == reciboId && d.status_detalle == "Borrador")

/-- calculateReciboTotal (src/index.js:1988-2172): lock the Draft receipt,
require an operating date, recompute every Draft line via `priceDetalle`,
write the line results and the receipt total.  An empty Draft line set
writes total 0 and returns instead of erroring (src/index.js:2018-2029).
A thrown error rolls the transaction back, so the error case carries no
state. -/
def calculateReciboTotal (db : DB) (reciboId : String) : Except String (DB × Rat) :=
  match db.recibos.find?
      (fun r => r.id_recibo == reciboId && r.status_recibo == "Borrador") with
  | none => .error "Recibo no encontrado o no está en estado Borrador"
  | some recibo =>
    match recibo.fecha with
    | none => .error "El recibo no tiene fecha operativa"
    | some fecha =>
      let year := fecha.year
      let month := fecha.month
      let detalles := detallesBorrador db reciboId
      if detalles.length == 0 then
        .ok (setTotalRecibo db reciboId 0, 0)
      else
        let step := detalles.foldl
          (fun (acc : DB × Rat) detalle =>
            let res := priceDetalle acc.1 recibo fecha year month detalle
            (updateDetalle acc.1 detalle.id_detalle res,
             acc.2 + (res.precio_final : Rat)))
          (db, 0)
        .ok (setTotalRecibo step.1 reciboId step.2, step.2)

/-! ## Cash-cut bucket id (generateCorteId, src/index.js:175-187) -/

/-- `String(n).padStart(2, "0")`. -/
def padStart2 (s : String) : String :=
  if s.length < 2 then String.mk (List.replicate (2 - s.length) '0') ++ s else s

/-- The `YYYYMMDD` component: `${year}${month}${day}` with month and day
zero-padded to two digits (src/index.js:182-186). -/
def yyyymmdd (f : Fecha) : String :=
  toString f.year ++ padStart2 (toString f.month) ++ padStart2 (toString f.day)

/-- generateCorteId (src/index.js:175-187): refuses a receipt with no
operating date, otherwise derives `idUsuario-idPlantel-YYYYMMDD` from the
receipt's own fields.  A null campus id interpolates as the JS text
"null". -/
def generateCorteId (recibo : Recibo) : Except String String :=
  match recibo.fecha with
  | none => .error "El recibo no tiene fecha operativa para generar el corte"
  | some f =>
    .ok (recibo.id_usuario ++ "-" ++ recibo.id_plantel.getD "null" ++ "-" ++ yyyymmdd f)

/-! ## Issue (POST /emitir-recibo, src/index.js:678-1077) -/

/-- The SELECT ... FOR UPDATE of the issue transaction
(src/index.js:703-715): first receipt in Draft with the document lock
clear. -/
def findEmitible (db : DB) (id_recibo : String) : Option Recibo :=
  db.recibos.find? (fun r =>
    r.id_recibo == id_recibo && r.status_recibo == "Borrador" && !r.generando_pdf)

/-- The duplicate-charge guard query (src/index.js:744-765): some Issued
Monthly line, on some Issued receipt of the given student, shares
(product, month, year) with some Monthly line of the receipt being
issued.  SQL `=` on the nullable mes/anio columns never matches NULL. -/
def hasDuplicadoEmitido (db : DB) (id_alumno : String) (id_recibo : String) : Bool :=
  db.recibos_detalle.any (fun rd =>
    rd.frecuencia_producto == "Mensual"
      && rd.status_detalle == "Emitido"
      && db.recibos.any (fun r =>
           r.id_recibo == rd.id_recibo
             && r.status_recibo == "Emitido"
             && r.id_alumno == some id_alumno)
      && db.recibos_detalle.any (fun rd2 =>
           rd2.id_recibo == id_recibo
             && rd2.frecuencia_producto == "Mensual"
             && rd2.id_producto == rd.id_producto
             && sqlEqInt rd2.mes rd.mes
             && sqlEqInt rd2.anio rd.anio))

/-- Result object of the issue transaction (src/index.js:845-850). -/
structure TxResult where
  id_recibo : String
  corteId : String
  id_alumno : Option String
  id_plantel : Option String
deriving DecidableEq, Repr

/-- The issue transaction (src/index.js:701-851): lock the Draft receipt,
validate mandatory fields and non-negative total, require at least one
Draft line, run the duplicate-charge guard, derive the cash-cut bucket id,
flip the receipt to Emitido (stamping issued-at, clearing the print flag,
setting the document lock), require the update to hit exactly one row,
flip all its lines to Emitido.  `sp_recalcular_corte` is a stored
procedure outside src/ and does not touch the modelled columns.  A thrown
error rolls the transaction back. -/
def emitirReciboTx (db : DB) (id_recibo : String) (now : Fecha) :
    Except String (DB × TxResult) :=
  match findEmitible db id_recibo with
  | none => .error "Recibo no encontrado, no está en Borrador o está siendo procesado"
  | some row =>
    if !truthyStr row.id_alumno || !truthyStr row.id_plantel || row.fecha.isNone then
      .error "Recibo con datos incompletos (alumno, plantel o fecha faltante)"
    else if row.total_recibo < 0 then
      .error "El recibo debe tener un total igual o mayor a cero"
    else if (detallesBorrador db id_recibo).length == 0 then
      .error "El recibo no tiene detalles válidos para emitir"
    else if hasDuplicadoEmitido db (row.id_alumno.getD "") id_recibo then
      .error "Ya existe un recibo emitido para el mismo producto, mes y año"
    else
      match generateCorteId row with
      | .error e => .error e
      | .ok corteId =>
        let affected := (db.recibos.filter (fun r => r.id_recibo == id_recibo)).length
        let db1 : DB := { db with recibos := db.recibos.map (fun r =>
          if r.id_recibo == id_recibo then
            { r with status_recibo := "Emitido", encorte := some corteId,
                     fecha_emision := some now, enimpresion := false,
                     generando_pdf := true }
          else r) }
        if affected != 1 then
          .error ("ERROR CRÍTICO: UPDATE recibos no afectó filas (affectedRows="
                   ++ toString affected ++ ")")
        else
          let db2 : DB := { db1 with recibos_detalle := db1.recibos_detalle.map (fun d =>
            if d.id_recibo == id_recibo then { d with status_detalle := "Emitido" } else d) }
          .ok (db2, { id_recibo := id_recibo, corteId := corteId,
                      id_alumno := row.id_alumno, id_plantel := row.id_plantel })

/-- The response object assembled at src/index.js:988-996. -/
structure EmitirResponse where
  ok : Bool
  id_recibo : String
  encorte : String
  ruta_pdf : Option String
  warning : Option String
deriving DecidableEq, Repr

/-- The try block of the issue endpoint after validation
(src/index.js:697-996): the transaction, the post-commit verification,
document generation (the whole try block of phase 3 — rehydration,
render, delete, upload — is the external outcome `pdfOutcome`, yielding
the uploaded reference on success), and the guarded reference write-back
of phase 4. -/
def emitirReciboAttempt (db : DB) (id_recibo : String) (now : Fecha)
    (pdfOutcome : Except String String) : DB × Except String EmitirResponse :=
  match emitirReciboTx db id_recibo now with
    | .error e => (db, .error e)
    | .ok (db1, tx) =>
      match db1.recibos.find? (fun r =>
          r.id_recibo == tx.id_recibo && r.status_recibo == "Emitido"
            && r.encorte == some tx.corteId) with
      | none =>
        (db1, .error "ERROR CRÍTICO: La transacción reportó éxito pero el recibo no está en estado Emitido")
      | some _ =>
        match pdfOutcome with
        | .error _ =>
          let db2 : DB := { db1 with recibos := db1.recibos.map (fun r =>
            if r.id_recibo == tx.id_recibo then { r with generando_pdf := false } else r) }
          (db2, .ok { ok := true, id_recibo := tx.id_recibo, encorte := tx.corteId,
                      ruta_pdf := none,
                      warning := some "Recibo emitido pero PDF no generado. Puede regenerarse." })
        | .ok rutaPdf =>
          let affected := (db1.recibos.filter (fun r =>
            r.id_recibo == tx.id_recibo && r.status_recibo == "Emitido"
              && r.generando_pdf)).length
          let db2 : DB := { db1 with recibos := db1.recibos.map (fun r =>
            if r.id_recibo == tx.id_recibo && r.status_recibo == "Emitido"
                && r.generando_pdf then
              { r with ruta_pdf := some rutaPdf, generando_pdf := false }
            else r) }
          if affected == 0 then
            (db2, .error "El recibo cambió de estado durante la generación del PDF")
          else
            (db2, .ok { ok := true, id_recibo := tx.id_recibo, encorte := tx.corteId,
                        ruta_pdf := some rutaPdf, warning := none })

/-- The full issue endpoint (src/index.js:678-1077): the try block, the
catch-path lock cleanup (clears the document lock where it is held) and
the finally-path print-flag cleanup run on every exit. -/
def emitirRecibo (db : DB) (id_recibo : String) (now : Fecha)
    (pdfOutcome : Except String String) : DB × Except String EmitirResponse :=
  let attempt := emitirReciboAttempt db id_recibo now pdfOutcome
  let dbAfterCatch : DB :=
    match attempt.2 with
    | .error _ => { attempt.1 with recibos := attempt.1.recibos.map (fun r =>
        if r.id_recibo == id_recibo && r.generando_pdf then
          { r with generando_pdf := false } else r) }
    | .ok _ => attempt.1
  let dbFinal : DB := { dbAfterCatch with recibos := dbAfterCatch.recibos.map (fun r =>
      if r.id_recibo == id_recibo then { r with enimpresion := false } else r) }
  (dbFinal, attempt.2)

/-! ## Cancel (POST /cancelar-recibo, src/index.js:1083-1242) -/

/-- The cancel transaction (src/index.js:1101-1143): the receipt must have
the cancellation-request flag set, be Emitido and have the document lock
clear; it is flipped to Cancelado, cancelled-at is stamped, the request
flag cleared and the document lock set.  `sp_recalcular_corte` (run only
when the receipt had a bucket) is a stored procedure outside src/.  An
error rolls back, so the error case returns the original state. -/
def cancelarReciboTx (db : DB) (id_recibo : String) (now : Fecha) :
    DB × Except String Recibo :=
  match db.recibos.find? (fun r =>
      r.id_recibo == id_recibo && r.solicita_cancelacion
        && r.status_recibo == "Emitido" && !r.generando_pdf) with
  | none => (db, .error "Recibo no válido para cancelación")
  | some recibo =>
    let db1 : DB := { db with recibos := db.recibos.map (fun r =>
      if r.id_recibo == id_recibo then
        { r with status_recibo := "Cancelado", fecha_cancelacion := some now,
                 solicita_cancelacion := false, generando_pdf := true }
      else r) }
    (db1, .ok recibo)

/-- PDF path resolution of the cancel endpoint (src/index.js:1180-1188): a
stored reference with the canonical bucket prefix is stripped to its path,
anything else falls back to `recibos/<id>.pdf`. -/
def resolveRutaCancelar (ruta_pdf : Option String) (bucket id_recibo : String) : String :=
  match ruta_pdf with
  | some ruta =>
    let pre := "gs://" ++ bucket ++ "/"
    if strStartsWith ruta pre then strDrop ruta pre.length
    else "recibos/" ++ id_recibo ++ ".pdf"
  | none => "recibos/" ++ id_recibo ++ ".pdf"

/-- The response object of src/index.js:1208-1214. -/
structure CancelarResponse where
  ok : Bool
  id_recibo : String
  status : String
  ruta_pdf : String
deriving DecidableEq, Repr

/-- The try block of the cancel endpoint (src/index.js:1097-1217): the
transaction, the post-commit rehydration and line check, the external
render (`renderOutcome`) and upload (`uploadOutcome`), and writing back
the new reference while releasing the lock. -/
def cancelarReciboAttempt (db : DB) (id_recibo : String) (now : Fecha) (bucket : String)
    (renderOutcome uploadOutcome : Except String Unit) :
    DB × Except String CancelarResponse :=
  match cancelarReciboTx db id_recibo now with
  | (dbt, .error e) => (dbt, .error e)
  | (db1, .ok _) =>
    match db1.recibos.find? (fun r =>
        r.id_recibo == id_recibo && r.status_recibo == "Cancelado") with
    | none => (db1, .error "No se pudo obtener recibo cancelado para PDF")
    | some reciboParaPdf =>
      let detalles := db1.recibos_detalle.filter (fun d => d.id_recibo == id_recibo)
      if detalles.length == 0 then
        (db1, .error "Recibo cancelado sin detalles (inconsistencia)")
      else
        match renderOutcome with
        | .error e => (db1, .error e)
        | .ok _ =>
          let rutaPdfFinal := resolveRutaCancelar reciboParaPdf.ruta_pdf bucket id_recibo
          match uploadOutcome with
          | .error e => (db1, .error e)
          | .ok _ =>
            let rutaGs := "gs://" ++ bucket ++ "/" ++ rutaPdfFinal
            let db2 : DB := { db1 with recibos := db1.recibos.map (fun r =>
              if r.id_recibo == id_recibo then
                { r with ruta_pdf := some rutaGs, generando_pdf := false }
              else r) }
            (db2, .ok { ok := true, id_recibo := id_recibo, status := "Cancelado",
                        ruta_pdf := rutaGs })

/-- The full cancel endpoint: the try block above plus the guaranteed
finally-cleanup (src/index.js:1219-1241) that clears both the document
lock and the cancellation-request flag on every exit path. -/
def cancelarRecibo (db : DB) (id_recibo : String) (now : Fecha) (bucket : String)
    (renderOutcome uploadOutcome : Except String Unit) :
    DB × Except String CancelarResponse :=
  let attempt := cancelarReciboAttempt db id_recibo now bucket renderOutcome uploadOutcome
  let dbFinal : DB := { attempt.1 with recibos := attempt.1.recibos.map (fun r =>
      if r.id_recibo == id_recibo then
        { r with generando_pdf := false, solicita_cancelacion := false }
      else r) }
  (dbFinal, attempt.2)

/-! ## Artifact path resolution (src/index.js:1248-1356, 1430-1571) -/

/-- Path resolution of POST /recibos/regenerar-pdf
(src/index.js:1530-1571): a stored reference must carry the canonical
bucket prefix (`.replace(prefix, "")` after a positive `startsWith` check
drops exactly the prefix) and the stripped path must not contain `..` nor
start with `/`; with no stored reference the deterministic fallback
`recibos/<id>.pdf` is used. -/
def resolveRutaRegenerar (ruta_pdf : Option String) (bucket reciboIdSanitized : String) :
    Except String String :=
  match ruta_pdf with
  | some ruta =>
    let bucketPrefix := "gs://" ++ bucket ++ "/"
    if !(strStartsWith ruta bucketPrefix) then
      .error "ruta_pdf en BD no coincide con bucket configurado"
    else
      let rutaPdfFinal := strDrop ruta bucketPrefix.length
      if strIncludes rutaPdfFinal ".." || strStartsWith rutaPdfFinal "/" then
        .error "ruta_pdf contiene caracteres peligrosos"
      else .ok rutaPdfFinal
  | none => .ok ("recibos/" ++ reciboIdSanitized ++ ".pdf")

/-- Path extraction of GET /pdf/:tipo/:id/ver (src/index.js:1326-1338): a
stored reference that does not carry the canonical bucket prefix makes
the request fail instead of being used. -/
def resolveRutaVer (ruta_pdf : String) (bucket : String) : Except String String :=
  let bucketPrefix := "gs://" ++ bucket ++ "/"
  if !(strStartsWith ruta_pdf bucketPrefix) then
    .error "Error en formato de archivo"
  else .ok (strDrop ruta_pdf bucketPrefix.length)

/-! ## Concrete fixtures used by the witnesses -/

/-- A complete Draft receipt. -/
def reciboW : Recibo :=
  { id_recibo := "r1", id_alumno := some "a", id_plantel := some "p", id_usuario := "u",
    fecha := some ⟨2024, 5, 10⟩, forma_pago := "Efectivo", status_recibo := "Borrador",
    total_recibo := 0, encorte := none, fecha_emision := none, fecha_cancelacion := none,
    solicita_cancelacion := false, generando_pdf := false, enimpresion := false,
    ruta_pdf := none }

/-- A Draft Monthly line of `reciboW` billed for the operating month. -/
def dW6 : Detalle :=
  { id_detalle := "d2", id_recibo := "r1", id_producto := "P", precio_base := 1000,
    frecuencia_producto := "Mensual", mes := some 5, anio := some 2024, monto_ajuste := none,
    descuento := 0, recargo := 0, beca := 0, precio_final := 0, status_detalle := "Borrador" }

/-- A 10% discount rule for product "P", cash, Current case. -/
def reglaW : Regla :=
  { id_regla := "g1", id_producto := "P", formas_pago := ["Efectivo"], casos := ["Corriente"],
    fecha_inicio := none, fecha_fin := none, es_periodica := false, dia_mes_inicio := 0,
    dia_mes_fin := 0, prioridad := 1, pct_descuento := some (1/10 : Rat), pct_recargo := none }

/-- Database with one issuable Draft receipt and one matching rule. -/
def dbW6 : DB :=
  { recibos := [reciboW], recibos_detalle := [dW6],
    reglas_producto := [reglaW], alumnos_mensuales := [] }

/-- Database with one complete Draft receipt and no line items. -/
def dbW2 : DB :=
  { recibos := [reciboW], recibos_detalle := [], reglas_producto := [],
    alumnos_mensuales := [] }

/-- An already Issued receipt of the same student. -/
def reciboW0 : Recibo := { reciboW with id_recibo := "r0", status_recibo := "Emitido" }

/-- A Draft Monthly line of `reciboW` for (P, 9, 2024). -/
def dW3cur : Detalle := { dW6 with mes := some 9, anio := some 2024, precio_base := 100 }

/-- An Issued Monthly line of `reciboW0` for the same (P, 9, 2024). -/
def dW3old : Detalle :=
  { dW3cur with id_detalle := "d1", id_recibo := "r0", status_detalle := "Emitido" }

/-- Database where issuing `reciboW` would double-bill (P, 9, 2024). -/
def dbW3 : DB :=
  { recibos := [reciboW, reciboW0], recibos_detalle := [dW3cur, dW3old],
    reglas_producto := [], alumnos_mensuales := [] }

/-- `reciboW` right after the issue transaction commits. -/
def reciboW4post : Recibo :=
  { reciboW with
      status_recibo := "Emitido"
      encorte := some "u-p-20240510"
      fecha_emision := some ⟨2024, 5, 10⟩
      generando_pdf := true }

/-- `dW6` right after the issue transaction commits. -/
def dW4post : Detalle := { dW6 with status_detalle := "Emitido" }

/-- State of `dbW6` right after the issue transaction commits. -/
def db1W4 : DB :=
  { recibos := [reciboW4post], recibos_detalle := [dW4post],
    reglas_producto := [reglaW], alumnos_mensuales := [] }

/-- Transaction result of issuing `reciboW` out of `dbW6`. -/
def txW4 : TxResult :=
  { id_recibo := "r1", corteId := "u-p-20240510", id_alumno := some "a",
    id_plantel := some "p" }

/-- An Issued receipt with an approved cancellation request. -/
def reciboW7 : Recibo :=
  { reciboW with status_recibo := "Emitido", solicita_cancelacion := true }

/-- Database with one cancellable receipt. -/
def dbW7 : DB :=
  { recibos := [reciboW7], recibos_detalle := [], reglas_producto := [],
    alumnos_mensuales := [] }

/-- A Draft receipt whose cancellation request will be rejected. -/
def reciboW10 : Recibo := { reciboW with solicita_cancelacion := true }

/-- Database where Cancel is rejected (receipt not Issued) with the
request flag set. -/
def dbW10 : DB :=
  { recibos := [reciboW10], recibos_detalle := [], reglas_producto := [],
    alumnos_mensuales := [] }

/-! ## Theorems -/

/-- C1: every line priced by the evaluator stores
`final = max(0, ceil(base − discount − scholarship + surcharge + adjustment))`,
so every final price is a non-negative integer currency unit with
ceiling rounding. -/
theorem claim_C1 (db : DB) (recibo : Recibo) (fecha : Fecha) (year month : Int)
    (detalle : Detalle) :
    (priceDetalle db recibo fecha year month detalle).precio_final
      = max 0 ⌈detalle.precio_base
                - (priceDetalle db recibo fecha year month detalle).descuento
                - (priceDetalle db recibo fecha year month detalle).beca
                + (priceDetalle db recibo fecha year month detalle).recargo
                + detalle.monto_ajuste.getD 0⌉
    ∧ 0 ≤ (priceDetalle db recibo fecha year month detalle).precio_final :=
  ⟨rfl, le_max_left 0 _⟩

/-- C5: for a Monthly line carrying a month and year, the temporal case is
Early (Adelantado) iff the line's (year, month) is strictly after the
operating (year, month), Late (Vencido) iff strictly before, and Current
(Corriente) otherwise. -/
theorem claim_C5 (year month m a : Int) (hm : m ≠ 0) (ha : a ≠ 0) :
    (computeCaso year month (some m) (some a) = "Adelantado"
        ↔ (year < a ∨ (a = year ∧ month < m)))
    ∧ (computeCaso year month (some m) (some a) = "Vencido"
        ↔ (a < year ∨ (a = year ∧ m < month)))
    ∧ (computeCaso year month (some m) (some a) = "Corriente"
        ↔ (a = year ∧ m = month)) := by
  have ht : (truthyInt (some m) && truthyInt (some a)) = true := by
    simp [truthyInt, hm, ha]
  have hAV : ("Adelantado" : String) ≠ "Vencido" := by decide
  have hAC : ("Adelantado" : String) ≠ "Corriente" := by decide
  have hVC : ("Vencido" : String) ≠ "Corriente" := by decide
  simp only [computeCaso, Option.getD_some, ht, if_true]
  split_ifs with h1 h2
  · simp only [Bool.or_eq_true, Bool.and_eq_true, decide_eq_true_eq, beq_iff_eq] at h1
    exact ⟨iff_of_true rfl (by omega), iff_of_false hAV (by omega),
      iff_of_false hAC (by omega)⟩
  · simp only [Bool.or_eq_true, Bool.and_eq_true, decide_eq_true_eq, beq_iff_eq] at h1 h2
    exact ⟨iff_of_false (Ne.symm hAV) (by omega), iff_of_true rfl (by omega),
      iff_of_false hVC (by omega)⟩
  · simp only [Bool.or_eq_true, Bool.and_eq_true, decide_eq_true_eq, beq_iff_eq] at h1 h2
    exact ⟨iff_of_false (Ne.symm hAC) (by omega), iff_of_false (Ne.symm hVC) (by omega),
      iff_of_true rfl (by omega)⟩

/-- C5 witness: a line billed for the calendar month right after the
operating month is classified Early. -/
theorem claim_C5_witness : computeCaso 2024 5 (some 6) (some 2024) = "Adelantado" :=
  (claim_C5 2024 5 6 2024 (by decide) (by decide)).1.mpr (by decide)

/-- The loop step of `applyReglas` adds the rule's contribution whether or
not the percentage is truthy (a falsy percentage contributes zero). -/
theorem truthyStep (b d : Rat) (o : Option Rat) :
    (if truthyRat o then d + b * o.getD 0 else d) = d + b * o.getD 0 := by
  cases o with
  | none => simp [truthyRat]
  | some v =>
    by_cases hv : v = 0
    · simp [truthyRat, hv]
    · simp [truthyRat, hv]

/-- Generalized accumulator form of the rule loop. -/
theorem applyReglas_foldl (b : Rat) (l : List Regla) (d r : Rat) :
    List.foldl
      (fun acc rp =>
        let descuento := if truthyRat rp.pct_descuento
          then acc.1 + b * rp.pct_descuento.getD 0 else acc.1
        let recargo := if truthyRat rp.pct_recargo
          then acc.2 + b * rp.pct_recargo.getD 0 else acc.2
        (descuento, recargo))
      (d, r) l
    = (d + (l.map fun rp => b * rp.pct_descuento.getD 0).sum,
       r + (l.map fun rp => b * rp.pct_recargo.getD 0).sum) := by
  induction l generalizing d r with
  | nil => simp
  | cons x xs ih =>
    rw [List.foldl_cons]
    dsimp only
    rw [truthyStep, truthyStep, ih]
    simp [List.map_cons, List.sum_cons, add_assoc]

/-- The rule loop computes the additive sums of `base × pct` over the
given rule list. -/
theorem applyReglas_eq_sum (b : Rat) (l : List Regla) :
    applyReglas b l
      = ((l.map fun rp => b * rp.pct_descuento.getD 0).sum,
         (l.map fun rp => b * rp.pct_recargo.getD 0).sum) := by
  have h := applyReglas_foldl b l 0 0
  simpa [applyReglas] using h

/-- Priority insertion only permutes. -/
theorem insertPrioridad_perm (rp : Regla) (l : List Regla) :
    (insertPrioridad rp l).Perm (rp :: l) := by
  induction l with
  | nil => exact List.Perm.refl _
  | cons x xs ih =>
    simp only [insertPrioridad]
    split
    · exact List.Perm.refl _
    · exact (ih.cons x).trans (List.Perm.swap rp x xs)

/-- `ORDER BY prioridad DESC` only permutes the matching rules. -/
theorem sortByPrioridadDesc_perm (l : List Regla) :
    (sortByPrioridadDesc l).Perm l := by
  induction l with
  | nil => exact List.Perm.refl _
  | cons x xs ih =>
    exact (insertPrioridad_perm x (sortByPrioridadDesc xs)).trans (ih.cons x)

/-- C6: the computed discount (resp. surcharge) of a line equals the sum
of `base_price × pct` over all matching rules — every matching rule
applies additively against the base price, and the rule loop is invariant
under any reordering, so priority affects only evaluation order. -/
theorem claim_C6 (db : DB) (recibo : Recibo) (fecha : Fecha) (year month : Int)
    (detalle : Detalle) (l1 l2 : List Regla) (hperm : l1.Perm l2) :
    ((priceDetalle db recibo fecha year month detalle).descuento
      = ((reglasForDetalle db recibo fecha year month detalle).map
          (fun rp => detalle.precio_base * rp.pct_descuento.getD 0)).sum)
    ∧ ((priceDetalle db recibo fecha year month detalle).recargo
      = ((reglasForDetalle db recibo fecha year month detalle).map
          (fun rp => detalle.precio_base * rp.pct_recargo.getD 0)).sum)
    ∧ applyReglas detalle.precio_base l1 = applyReglas detalle.precio_base l2 := by
  have hsort :=
    sortByPrioridadDesc_perm (reglasForDetalle db recibo fecha year month detalle)
  refine ⟨?_, ?_, ?_⟩
  · show (applyReglas detalle.precio_base
      (sortByPrioridadDesc (reglasForDetalle db recibo fecha year month detalle))).1
      = ((reglasForDetalle db recibo fecha year month detalle).map
          (fun rp => detalle.precio_base * rp.pct_descuento.getD 0)).sum
    rw [applyReglas_eq_sum]
    exact (hsort.map _).sum_eq
  · show (applyReglas detalle.precio_base
      (sortByPrioridadDesc (reglasForDetalle db recibo fecha year month detalle))).2
      = ((reglasForDetalle db recibo fecha year month detalle).map
          (fun rp => detalle.precio_base * rp.pct_recargo.getD 0)).sum
    rw [applyReglas_eq_sum]
    exact (hsort.map _).sum_eq
  · rw [applyReglas_eq_sum, applyReglas_eq_sum]
    exact Prod.ext ((hperm.map _).sum_eq) ((hperm.map _).sum_eq)

/-- C6 witness: on the fixture (base 1000, one matching 10% discount rule,
Current month, no scholarship, no adjustment) the discount is the additive
sum 100 and the final price 900. -/
theorem claim_C6_witness :
    (priceDetalle dbW6 reciboW ⟨2024, 5, 10⟩ 2024 5 dW6).descuento
      = ((reglasForDetalle dbW6 reciboW ⟨2024, 5, 10⟩ 2024 5 dW6).map
          (fun rp => dW6.precio_base * rp.pct_descuento.getD 0)).sum
    ∧ (priceDetalle dbW6 reciboW ⟨2024, 5, 10⟩ 2024 5 dW6).descuento = 100
    ∧ (priceDetalle dbW6 reciboW ⟨2024, 5, 10⟩ 2024 5 dW6).precio_final = 900 :=
  ⟨(claim_C6 dbW6 reciboW ⟨2024, 5, 10⟩ 2024 5 dW6 [] [] (List.Perm.refl _)).1,
   by norm_num [priceDetalle, reglasForDetalle, dbW6, reciboW, dW6, reglaW, computeCaso,
     sortByPrioridadDesc, insertPrioridad, applyReglas, truthyRat, truthyInt, lookupBecaPct,
     matchesReglaMensual, inicioOk, finOk, periodicaOk],
   by norm_num [priceDetalle, reglasForDetalle, dbW6, reciboW, dW6, reglaW, computeCaso,
     sortByPrioridadDesc, insertPrioridad, applyReglas, truthyRat, truthyInt, lookupBecaPct,
     matchesReglaMensual, inicioOk, finOk, periodicaOk]⟩

/-- Members of an id-guarded update map: any member carrying the guarded
id satisfies whatever the update guarantees for that id. -/
theorem mem_map_idUpdate {g : Recibo → Recibo}
    {l : List Recibo} {id : String} {P : Recibo → Prop}
    (h1 : ∀ x ∈ l, x.id_recibo = id → P (g x)) :
    ∀ r ∈ l.map (fun x => if x.id_recibo == id then g x else x),
      r.id_recibo = id → P r := by
  intro r hr hrid
  rcases List.mem_map.mp hr with ⟨x, hx, rfl⟩
  by_cases hxid : x.id_recibo = id
  · have hb : (x.id_recibo == id) = true := by simp [hxid]
    rw [if_pos hb]
    exact h1 x hx hxid
  · have hb : ¬((x.id_recibo == id) = true) := by simp [hxid]
    rw [if_neg hb] at hrid
    exact absurd hrid hxid

/-- C7: the cancel transaction succeeds exactly on a receipt with the
cancellation-request flag set, status Issued and the document lock clear
(flipping it to Cancelado, stamping cancelled-at, clearing the request
flag and setting the lock), and rejects any receipt missing one of the
three preconditions, leaving the state untouched. -/
theorem claim_C7 (db : DB) (id : String) (now : Fecha) :
    (∀ recibo, db.recibos.find? (fun r =>
        r.id_recibo == id && r.solicita_cancelacion
          && r.status_recibo == "Emitido" && !r.generando_pdf) = some recibo →
      (cancelarReciboTx db id now).2 = .ok recibo
      ∧ (∀ r ∈ (cancelarReciboTx db id now).1.recibos, r.id_recibo = id →
          r.status_recibo = "Cancelado" ∧ r.fecha_cancelacion = some now
            ∧ r.solicita_cancelacion = false ∧ r.generando_pdf = true))
    ∧ ((∀ r ∈ db.recibos, r.id_recibo = id →
          ¬(r.solicita_cancelacion = true ∧ r.status_recibo = "Emitido"
              ∧ r.generando_pdf = false)) →
        cancelarReciboTx db id now = (db, .error "Recibo no válido para cancelación")) := by
  constructor
  · intro recibo hfind
    constructor
    · simp [cancelarReciboTx, hfind]
    · simp only [cancelarReciboTx, hfind]
      apply mem_map_idUpdate
      exact fun x _ _ => ⟨rfl, rfl, rfl, rfl⟩
  · intro hnone
    have hfind : db.recibos.find? (fun r =>
        r.id_recibo == id && r.solicita_cancelacion
          && r.status_recibo == "Emitido" && !r.generando_pdf) = none := by
      rw [List.find?_eq_none]
      intro x hx
      by_cases hxid : x.id_recibo = id
      · intro hp
        simp only [Bool.and_eq_true, beq_iff_eq, Bool.not_eq_true'] at hp
        exact hnone x hx hxid ⟨hp.1.1.2, hp.1.2, hp.2⟩
      · intro hp
        simp only [Bool.and_eq_true, beq_iff_eq] at hp
        exact hxid hp.1.1.1
    simp [cancelarReciboTx, hfind]

/-- C7 witness: the fixture's Issued receipt with the request flag set is
cancelled successfully. -/
theorem claim_C7_witness :
    (cancelarReciboTx dbW7 "r1" ⟨2024, 6, 1⟩).2 = .ok reciboW7 :=
  ((claim_C7 dbW7 "r1" ⟨2024, 6, 1⟩).1 reciboW7 rfl).1

/-- C10: after any terminating run of the cancel endpoint — accepted or
rejected — the guaranteed cleanup leaves the receipt's
cancellation-request flag and document-generation lock both cleared. -/
theorem claim_C10 (db : DB) (id : String) (now : Fecha) (bucket : String)
    (renderOutcome uploadOutcome : Except String Unit) :
    ∀ r ∈ (cancelarRecibo db id now bucket renderOutcome uploadOutcome).1.recibos,
      r.id_recibo = id →
      r.solicita_cancelacion = false ∧ r.generando_pdf = false := by
  apply mem_map_idUpdate
  exact fun x _ _ => ⟨rfl, rfl⟩

/-- C10 witness: a Cancel rejected because the receipt is still Draft
clears the previously set cancellation-request flag. -/
theorem claim_C10_witness :
    reciboW ∈ (cancelarRecibo dbW10 "r1" ⟨2024, 6, 1⟩ "b" (.ok ()) (.ok ())).1.recibos
    ∧ (reciboW.solicita_cancelacion = false ∧ reciboW.generando_pdf = false) :=
  ⟨by decide,
   claim_C10 dbW10 "r1" ⟨2024, 6, 1⟩ "b" (.ok ()) (.ok ()) reciboW (by decide) rfl⟩

/-- C8: the cash-cut bucket id is exactly
`<cashier-id>-<campus-id>-<YYYYMMDD>` built from the receipt's own
operating date, a receipt with no operating date raises an error, and the
id depends on nothing but the cashier, the campus and that date. -/
theorem claim_C8 (recibo : Recibo) :
    (recibo.fecha = none →
      generateCorteId recibo
        = .error "El recibo no tiene fecha operativa para generar el corte")
    ∧ (∀ f : Fecha, recibo.fecha = some f →
        generateCorteId recibo
          = .ok (recibo.id_usuario ++ "-" ++ recibo.id_plantel.getD "null" ++ "-"
                  ++ yyyymmdd f))
    ∧ (∀ r2 : Recibo, r2.id_usuario = recibo.id_usuario →
        r2.id_plantel = recibo.id_plantel → r2.fecha = recibo.fecha →
        generateCorteId r2 = generateCorteId recibo) := by
  refine ⟨fun h => ?_, fun f h => ?_, fun r2 h1 h2 h3 => ?_⟩
  · simp [generateCorteId, h]
  · simp [generateCorteId, h]
  · cases hf : recibo.fecha <;> simp [generateCorteId, h1, h2, h3, hf]

/-- C8 witness: the issue fixture's bucket id evaluates to
`u-p-20240510`. -/
theorem claim_C8_witness :
    generateCorteId reciboW
      = .ok (reciboW.id_usuario ++ "-" ++ reciboW.id_plantel.getD "null" ++ "-"
              ++ yyyymmdd ⟨2024, 5, 10⟩)
    ∧ generateCorteId reciboW = .ok "u-p-20240510" :=
  ⟨(claim_C8 reciboW).2.1 ⟨2024, 5, 10⟩ rfl, rfl⟩

/-- Post-processing maps of the endpoints do not change receipt
statuses. -/
theorem map_status_eq (l : List Recibo) (f : Recibo → Recibo)
    (hf : ∀ x, (f x).status_recibo = x.status_recibo) :
    (l.map f).map (fun r => r.status_recibo) = l.map (fun r => r.status_recibo) := by
  induction l with
  | nil => rfl
  | cons x xs ih => simp only [List.map_cons, hf, ih]

/-- A failing issue transaction surfaces its error through the endpoint
and leaves every receipt status as it was (the transaction rolled back;
the catch/finally cleanups only touch the two advisory flags). -/
theorem emitirRecibo_error (db : DB) (id : String) (now : Fecha)
    (pdf : Except String String) (e : String)
    (h : emitirReciboTx db id now = .error e) :
    (emitirRecibo db id now pdf).2 = .error e
    ∧ (emitirRecibo db id now pdf).1.recibos.map (fun r => r.status_recibo)
        = db.recibos.map (fun r => r.status_recibo) := by
  have hatt : emitirReciboAttempt db id now pdf = (db, .error e) := by
    simp [emitirReciboAttempt, h]
  constructor
  · simp [emitirRecibo, hatt]
  · simp only [emitirRecibo, hatt]
    exact (map_status_eq _ _ (fun x => by split <;> rfl)).trans
      (map_status_eq _ _ (fun x => by split <;> rfl))

/-- C2: issuing a Draft receipt whose set of Draft line items is empty is
rejected (and every receipt status, in particular the Draft one, is left
unchanged), while recomputing the same receipt succeeds and writes a
receipt total of exactly 0. -/
theorem claim_C2 (db : DB) (id : String) (now : Fecha) (pdf : Except String String)
    (row : Recibo) (f : Fecha)
    (hfind : findEmitible db id = some row)
    (hcalcfind : db.recibos.find?
      (fun r => r.id_recibo == id && r.status_recibo == "Borrador") = some row)
    (halumno : truthyStr row.id_alumno = true)
    (hplantel : truthyStr row.id_plantel = true)
    (hfecha : row.fecha = some f)
    (htotal : 0 ≤ row.total_recibo)
    (hempty : detallesBorrador db id = []) :
    (emitirRecibo db id now pdf).2 = .error "El recibo no tiene detalles válidos para emitir"
    ∧ (emitirRecibo db id now pdf).1.recibos.map (fun r => r.status_recibo)
        = db.recibos.map (fun r => r.status_recibo)
    ∧ calculateReciboTotal db id = .ok (setTotalRecibo db id 0, 0)
    ∧ (∀ r ∈ (setTotalRecibo db id 0).recibos, r.id_recibo = id → r.total_recibo = 0) := by
  have htx : emitirReciboTx db id now
      = .error "El recibo no tiene detalles válidos para emitir" := by
    simp [emitirReciboTx, hfind, halumno, hplantel, hfecha, not_lt.mpr htotal, hempty]
  obtain ⟨h1, h2⟩ := emitirRecibo_error db id now pdf _ htx
  refine ⟨h1, h2, ?_, ?_⟩
  · simp [calculateReciboTotal, hcalcfind, hfecha, hempty]
  · apply mem_map_idUpdate
    exact fun x _ _ => rfl

/-- C2 witness: the no-lines fixture — Issue is rejected with the
empty-details error while Compute writes total 0. -/
theorem claim_C2_witness :
    (emitirRecibo dbW2 "r1" ⟨2024, 5, 10⟩ (.error "x")).2
      = .error "El recibo no tiene detalles válidos para emitir"
    ∧ calculateReciboTotal dbW2 "r1" = .ok (setTotalRecibo dbW2 "r1" 0, 0) :=
  have h := claim_C2 dbW2 "r1" ⟨2024, 5, 10⟩ (.error "x") reciboW ⟨2024, 5, 10⟩
    rfl rfl (by decide) (by decide) rfl (le_of_eq rfl) rfl
  ⟨h.1, h.2.2.1⟩

/-- C3: when the receipt being issued contains a Monthly line for a
(product, month, year) that the same student already has as an Issued
Monthly line on some Issued receipt, Issue rejects with the
duplicate-charge error and all receipt statuses (in particular the Draft
one) are left unchanged, regardless of which receipt holds the earlier
line. -/
theorem claim_C3 (db : DB) (id : String) (now : Fecha) (pdf : Except String String)
    (row rAnt : Recibo) (f : Fecha) (alumno p : String)
    (d2 rd : Detalle) (m y : Int)
    (hfind : findEmitible db id = some row)
    (halumno : row.id_alumno = some alumno)
    (halumnoNE : alumno ≠ "")
    (hplantel : truthyStr row.id_plantel = true)
    (hfecha : row.fecha = some f)
    (htotal : 0 ≤ row.total_recibo)
    (hnonempty : detallesBorrador db id ≠ [])
    (hd2mem : d2 ∈ db.recibos_detalle) (hd2rec : d2.id_recibo = id)
    (hd2freq : d2.frecuencia_producto = "Mensual")
    (hd2prod : d2.id_producto = p) (hd2mes : d2.mes = some m) (hd2anio : d2.anio = some y)
    (hrdmem : rd ∈ db.recibos_detalle)
    (hrdfreq : rd.frecuencia_producto = "Mensual") (hrdstat : rd.status_detalle = "Emitido")
    (hrdprod : rd.id_producto = p) (hrdmes : rd.mes = some m) (hrdanio : rd.anio = some y)
    (hrmem : rAnt ∈ db.recibos) (hrid : rAnt.id_recibo = rd.id_recibo)
    (hrstat : rAnt.status_recibo = "Emitido") (hralumno : rAnt.id_alumno = some alumno) :
    (emitirRecibo db id now pdf).2
      = .error "Ya existe un recibo emitido para el mismo producto, mes y año"
    ∧ (emitirRecibo db id now pdf).1.recibos.map (fun r => r.status_recibo)
        = db.recibos.map (fun r => r.status_recibo) := by
  have hdup : hasDuplicadoEmitido db alumno id = true := by
    unfold hasDuplicadoEmitido
    rw [List.any_eq_true]
    refine ⟨rd, hrdmem, ?_⟩
    have hAnt : db.recibos.any (fun r =>
        r.id_recibo == rd.id_recibo && r.status_recibo == "Emitido"
          && r.id_alumno == some alumno) = true := by
      rw [List.any_eq_true]
      refine ⟨rAnt, hrmem, ?_⟩
      simp [hrid, hrstat, hralumno]
    have hD2 : db.recibos_detalle.any (fun rd2 =>
        rd2.id_recibo == id && rd2.frecuencia_producto == "Mensual"
          && rd2.id_producto == rd.id_producto
          && sqlEqInt rd2.mes rd.mes && sqlEqInt rd2.anio rd.anio) = true := by
      rw [List.any_eq_true]
      refine ⟨d2, hd2mem, ?_⟩
      simp [hd2rec, hd2freq, hd2prod, hd2mes, hd2anio, hrdprod, hrdmes, hrdanio, sqlEqInt]
    simp [hrdfreq, hrdstat, hAnt, hD2]
  have halum : truthyStr row.id_alumno = true := by simp [truthyStr, halumno, halumnoNE]
  have hlen : ((detallesBorrador db id).length == 0) = false := by
    simp only [beq_eq_false_iff_ne, ne_eq, List.length_eq_zero]
    exact hnonempty
  have htx : emitirReciboTx db id now
      = .error "Ya existe un recibo emitido para el mismo producto, mes y año" := by
    have hgetd : row.id_alumno.getD "" = alumno := by rw [halumno]; rfl
    simp [emitirReciboTx, hfind, halum, hplantel, hfecha, not_lt.mpr htotal, hlen,
      hgetd, hdup]
  exact emitirRecibo_error db id now pdf _ htx

/-- C3 witness: issuing `reciboW` out of `dbW3` is rejected because
`reciboW0` (a different receipt of the same student) already carries an
Issued Monthly line for the same (P, 9, 2024). -/
theorem claim_C3_witness :
    (emitirRecibo dbW3 "r1" ⟨2024, 5, 10⟩ (.error "x")).2
      = .error "Ya existe un recibo emitido para el mismo producto, mes y año" :=
  (claim_C3 dbW3 "r1" ⟨2024, 5, 10⟩ (.error "x") reciboW reciboW0 ⟨2024, 5, 10⟩ "a" "P"
    dW3cur dW3old 9 2024 rfl rfl (by decide) (by decide) rfl (le_of_eq rfl) (by decide)
    (by decide) rfl rfl rfl rfl rfl (by decide) rfl rfl rfl rfl rfl (by decide) rfl rfl
    rfl).1

/-- Inversion of a committed issue transaction: the result names the
requested receipt, some receipt row carries that id, and every receipt
row carrying it is now Emitido, linked to the returned bucket and holding
the document lock. -/
theorem emitirReciboTx_ok_inv (db : DB) (id : String) (now : Fecha) (db1 : DB)
    (tx : TxResult) (h : emitirReciboTx db id now = .ok (db1, tx)) :
    tx.id_recibo = id
    ∧ (∃ x ∈ db1.recibos, x.id_recibo = id)
    ∧ (∀ x ∈ db1.recibos, x.id_recibo = id →
        x.status_recibo = "Emitido" ∧ x.encorte = some tx.corteId
          ∧ x.generando_pdf = true) := by
  unfold emitirReciboTx at h
  cases hf : findEmitible db id with
  | none => rw [hf] at h; exact absurd h (by simp)
  | some row =>
    rw [hf] at h
    have hf' := hf
    unfold findEmitible at hf'
    have hmem := List.mem_of_find?_eq_some hf'
    have hpred := List.find?_some hf'
    simp only [Bool.and_eq_true, beq_iff_eq] at hpred
    have hrowid : row.id_recibo = id := hpred.1.1
    dsimp only at h
    cases hfc : row.fecha with
    | none =>
      rw [if_pos (by simp [hfc])] at h
      exact absurd h (by simp)
    | some ff =>
      simp only [generateCorteId, hfc] at h
      split_ifs at h with h1 h2 h3 h4 h5
      simp only [Except.ok.injEq, Prod.mk.injEq] at h
      obtain ⟨hdb, htx⟩ := h
      subst hdb
      subst htx
      refine ⟨rfl, ?_, ?_⟩
      · refine ⟨_, List.mem_map_of_mem _ hmem, ?_⟩
        simp [hrowid]
      · apply mem_map_idUpdate
        exact fun a _ _ => ⟨rfl, rfl, rfl⟩

/-- C4: if the issue transaction commits and the subsequent document
generation fails, the endpoint still answers ok with the warning and a
null artifact reference, every receipt row with the issued id stays
Emitido, and its document-generation lock ends cleared. -/
theorem claim_C4 (db : DB) (id : String) (now : Fecha) (e : String)
    (db1 : DB) (tx : TxResult)
    (h : emitirReciboTx db id now = .ok (db1, tx)) :
    (emitirRecibo db id now (.error e)).2
      = .ok { ok := true, id_recibo := tx.id_recibo, encorte := tx.corteId,
              ruta_pdf := none,
              warning := some "Recibo emitido pero PDF no generado. Puede regenerarse." }
    ∧ (∀ r ∈ (emitirRecibo db id now (.error e)).1.recibos, r.id_recibo = id →
        r.status_recibo = "Emitido" ∧ r.generando_pdf = false) := by
  obtain ⟨hid, ⟨x0, hx0, hx0id⟩, hall⟩ := emitirReciboTx_ok_inv db id now db1 tx h
  have hp : (x0.id_recibo == tx.id_recibo && x0.status_recibo == "Emitido"
      && x0.encorte == some tx.corteId) = true := by
    obtain ⟨hs, hc, _⟩ := hall x0 hx0 hx0id
    simp [hx0id, hid, hs, hc]
  obtain ⟨rfound, hff⟩ : ∃ r, db1.recibos.find? (fun r =>
      r.id_recibo == tx.id_recibo && r.status_recibo == "Emitido"
        && r.encorte == some tx.corteId) = some r := by
    cases hff : db1.recibos.find? (fun r =>
        r.id_recibo == tx.id_recibo && r.status_recibo == "Emitido"
          && r.encorte == some tx.corteId) with
    | none => exact absurd hp (by simpa using List.find?_eq_none.mp hff x0 hx0)
    | some r => exact ⟨r, rfl⟩
  have hatt : emitirReciboAttempt db id now (.error e)
      = ({ db1 with recibos := db1.recibos.map (fun r =>
            if r.id_recibo == tx.id_recibo then { r with generando_pdf := false }
            else r) },
         .ok { ok := true, id_recibo := tx.id_recibo, encorte := tx.corteId,
               ruta_pdf := none,
               warning := some "Recibo emitido pero PDF no generado. Puede regenerarse." }) := by
    simp [emitirReciboAttempt, h, hff]
  have hinner : ∀ r ∈ db1.recibos.map (fun x =>
      if x.id_recibo == tx.id_recibo then { x with generando_pdf := false } else x),
      r.id_recibo = tx.id_recibo →
      r.status_recibo = "Emitido" ∧ r.generando_pdf = false :=
    mem_map_idUpdate (fun x hx hxid => ⟨(hall x hx (hid ▸ hxid)).1, rfl⟩)
  constructor
  · simp [emitirRecibo, hatt]
  · simp only [emitirRecibo, hatt]
    apply mem_map_idUpdate
    exact fun a ha haid => hinner a ha (haid.trans hid.symm)

/-- C4 witness: issuing the fixture receipt succeeds, the document
renderer fails, and the endpoint still answers ok with the warning and a
null reference. -/
theorem claim_C4_witness :
    (emitirRecibo dbW6 "r1" ⟨2024, 5, 10⟩ (.error "render failed")).2
      = .ok { ok := true, id_recibo := txW4.id_recibo, encorte := txW4.corteId,
              ruta_pdf := none,
              warning := some "Recibo emitido pero PDF no generado. Puede regenerarse." } :=
  (claim_C4 dbW6 "r1" ⟨2024, 5, 10⟩ "render failed" db1W4 txW4 rfl).1

/-- C9 counterexample: a fallback-derived artifact path containing the
traversal segment `..` is NOT rejected — the regeneration path resolver
returns it successfully, so the claim as stated is false. -/
theorem claim_C9_counterexample :
    resolveRutaRegenerar none "b" ".." = .ok "recibos/...pdf"
    ∧ strIncludes "recibos/...pdf" ".." = true :=
  ⟨rfl, by decide⟩

/-- C9 (amended): a stored artifact reference is trusted only when it
carries the canonical `gs://bucket/` prefix (otherwise the operation
fails), and the path stripped from a stored reference is additionally
rejected when it contains traversal segments or starts with `/`; the
fallback path is built from the receipt id without a traversal check. -/
theorem claim_C9 (stored ruta bucket id : String) :
    (strStartsWith stored ("gs://" ++ bucket ++ "/") = false →
      resolveRutaRegenerar (some stored) bucket id
        = .error "ruta_pdf en BD no coincide con bucket configurado")
    ∧ (strStartsWith stored ("gs://" ++ bucket ++ "/") = true →
      (strIncludes (strDrop stored ("gs://" ++ bucket ++ "/").length) ".."
        || strStartsWith (strDrop stored ("gs://" ++ bucket ++ "/").length) "/") = true →
      resolveRutaRegenerar (some stored) bucket id
        = .error "ruta_pdf contiene caracteres peligrosos")
    ∧ resolveRutaRegenerar none bucket id = .ok ("recibos/" ++ id ++ ".pdf")
    ∧ (strStartsWith ruta ("gs://" ++ bucket ++ "/") = false →
      resolveRutaVer ruta bucket = .error "Error en formato de archivo") := by
  refine ⟨fun h => ?_, fun h1 h2 => ?_, rfl, fun h => ?_⟩
  · simp only [resolveRutaRegenerar, h, Bool.not_false, if_true]
  · simp only [resolveRutaRegenerar, h1, Bool.not_true, Bool.false_eq_true, if_false]
    rw [if_pos h2]
  · simp only [resolveRutaVer, h, Bool.not_false, if_true]

/-- C9 witness: a stored reference without the canonical prefix makes the
regeneration fail, and a stored reference whose stripped path contains
`..` is rejected as dangerous. -/
theorem claim_C9_witness :
    resolveRutaRegenerar (some "nope") "b" "x"
      = .error "ruta_pdf en BD no coincide con bucket configurado"
    ∧ resolveRutaRegenerar (some "gs://b/../secret.pdf") "b" "x"
      = .error "ruta_pdf contiene caracteres peligrosos" :=
  ⟨(claim_C9 "nope" "" "b" "x").1 (by decide),
   (claim_C9 "gs://b/../secret.pdf" "" "b" "x").2.1 (by decide) (by decide)⟩

end Billing
